import Mathlib

/-!
Verification of the Horta Inteligente dashboard variants.

Shallow embedding of the irrigation-dashboard front-ends of this repository
(`src/src/App.jsx`, the unnamed variants `part_000` … `part_003`, and the two
React variants embedded in `src/README.md`).  The UI handlers are pure
functions here; Firestore documents are records, collections are lists, and
each handler's database effect is made explicit.  JavaScript numbers coming
from sliders and number inputs are modelled as `Int` (the DOM delivers
integral values for these controls).

The file is laid out as definitions first, then the theorems about them.
-/

set_option linter.unusedVariables false

namespace Horta

/-!
Garden document and its handlers (`src/src/App.jsx`, `part_000`).
-/

/-- Sensor block of the garden document (`sensors` field in `App.jsx` /
`part_000`): soil moisture, temperature, air humidity. -/
structure SensorData where
  soilMoisture : Int
  temperature : Int
  humidity : Int
deriving DecidableEq, Repr

/-- The two valves of the `App.jsx` / `part_000` variants. -/
inductive ValveId where
  | valve1
  | valve2
deriving DecidableEq, Repr

/-- Boolean on/off state per valve (`valves` map of the garden document). -/
structure ValveStates where
  valve1 : Bool
  valve2 : Bool
deriving DecidableEq, Repr

/-- Look up one valve's state, as `valveStates[valveId]` does in the source. -/
def getValve (v : ValveStates) : ValveId → Bool
  | .valve1 => v.valve1
  | .valve2 => v.valve2

/-- Dot-notation update `valves.<valveId> = b`: only the named nested field
changes, the sibling entry of the map is untouched. -/
def setValve (v : ValveStates) : ValveId → Bool → ValveStates
  | .valve1, b => { v with valve1 := b }
  | .valve2, b => { v with valve2 := b }

/-- The sibling valve of a valve id. -/
def otherValve : ValveId → ValveId
  | .valve1 => .valve2
  | .valve2 => .valve1

/-- The single garden document `artifacts/.../garden/main` holding sensors,
valves and a `lastUpdated` ISO timestamp string. -/
structure GardenDoc where
  sensors : SensorData
  valves : ValveStates
  lastUpdated : String
deriving DecidableEq, Repr

/-- Document written by `ensureFirestoreData` (`App.jsx`) and `ensureData`
(`part_000`) when the garden document does not exist yet; `now` stands for
`new Date().toISOString()`. -/
def initialGardenDoc (now : String) : GardenDoc :=
  { sensors := { soilMoisture := 50, temperature := 22, humidity := 60 }
    valves := { valve1 := false, valve2 := false }
    lastUpdated := now }

/-- Effect of `handleValveToggle` (`App.jsx` lines 159-172) and `toggleValve`
(`part_000` lines 67-74) on the garden document: an `updateDoc` that sets the
dot-notation field `valves.<valveId>` to the negation of the valve's currently
displayed state `disp` and refreshes `lastUpdated` to `now`. -/
def applyValveToggle (disp : ValveStates) (vid : ValveId) (now : String)
    (d : GardenDoc) : GardenDoc :=
  { d with valves := setValve d.valves vid (! getValve disp vid), lastUpdated := now }

/-- Effect of `updateMockSensorData` (`App.jsx` lines 174-190) and
`updateMock` (`part_000` lines 76-85) on the garden document: an `updateDoc`
that replaces the whole `sensors` block with freshly generated mock values
`next` and refreshes `lastUpdated`. -/
def applyUpdateMock (next : SensorData) (now : String) (d : GardenDoc) : GardenDoc :=
  { d with sensors := next, lastUpdated := now }

/-- Manual sprinkler toggle `toggleAspersor` of `part_001` (lines 86-100) and
of the first README variant (lines 159-172): when `isAutoMode` holds the
handler returns before any database call (`none`); otherwise it issues a
`setDoc` on `status/aspersor1` writing the negation of the displayed state
(`some isOnWritten`). -/
def toggleAspersor (isAutoMode lig : Bool) : Option Bool :=
  if isAutoMode then none else some (! lig)

/-!
Min/max humidity sliders (claim C1).

Two README variants expose both sliders.  The first (lines 234-245,
`handleMinHumidityChange` / `handleMaxHumidityChange`) clamps the incoming
value against the other bound; the second (`AutoIrrigationCard`, lines
804-826, `handleMinChange` / `handleMaxChange`) instead drags the other bound
along to the incoming value.
-/

/-- One slider interaction: the user moves the min or the max slider to `v`. -/
inductive SliderEvent where
  | setMin (v : Int)
  | setMax (v : Int)
deriving DecidableEq, Repr

/-- The numeric value carried by a slider event. -/
def SliderEvent.val : SliderEvent → Int
  | .setMin v => v
  | .setMax v => v

/-- Range-input values are within the DOM attributes of both sliders of the
first README variant, which declare the range 0 to 100. -/
def eventInRange (e : SliderEvent) : Prop := 0 ≤ e.val ∧ e.val ≤ 100

instance : DecidablePred eventInRange := fun e =>
  inferInstanceAs (Decidable (0 ≤ e.val ∧ e.val ≤ 100))

/-- The `(minHumidity, maxHumidity)` pair held in component state. -/
structure HumState where
  minH : Int
  maxH : Int
deriving DecidableEq, Repr

/-- Clamping handlers of the first README variant (lines 234-245):
`handleMinHumidityChange` replaces `v >= maxHumidity` with
`Math.max(0, maxHumidity - 1)`; `handleMaxHumidityChange` replaces
`v <= minHumidity` with `Math.min(100, minHumidity + 1)`. -/
def stepClamped (s : HumState) : SliderEvent → HumState
  | .setMin v => { s with minH := if v ≥ s.maxH then max 0 (s.maxH - 1) else v }
  | .setMax v => { s with maxH := if v ≤ s.minH then min 100 (s.minH + 1) else v }

/-- Handlers of the `AutoIrrigationCard` README variant (lines 804-826):
`handleMinChange` sets `minHumidity := v` and, if `v > maxHumidity`, also
`maxHumidity := v`; `handleMaxChange` symmetrically. -/
def stepDragged (s : HumState) : SliderEvent → HumState
  | .setMin v => { minH := v, maxH := if v > s.maxH then v else s.maxH }
  | .setMax v => { minH := if v < s.minH then v else s.minH, maxH := v }

/-- Invariant maintained by the clamping variant: both bounds stay in the
slider range and the min stays strictly below the max. -/
def HumInv (s : HumState) : Prop := 0 ≤ s.minH ∧ s.minH < s.maxH ∧ s.maxH ≤ 100

instance : DecidablePred HumInv := fun s =>
  inferInstanceAs (Decidable (0 ≤ s.minH ∧ s.minH < s.maxH ∧ s.maxH ≤ 100))

/-- Initial slider state of the first README variant
(`useState(35)` / `useState(60)`). -/
def initHumState : HumState := { minH := 35, maxH := 60 }

/-- State of the first README variant after a sequence of slider events. -/
def runClamped (evs : List SliderEvent) : HumState :=
  evs.foldl stepClamped initHumState

/-!
Add-schedule validation (claim C2).
-/

/-- Test of the JavaScript regular expression `^\d{2}:\d{2}$`: exactly two
ASCII digits, a colon, and two ASCII digits. -/
def matchesHHMM (s : String) : Bool :=
  match s.data with
  | [c0, c1, c2, c3, c4] =>
      c0.isDigit && c1.isDigit && c2 == ':' && c3.isDigit && c4.isDigit
  | _ => false

/-- Outcome of an add-schedule handler: either a validation/alert message with
no database write, or an `addDoc` carrying the schedule payload. -/
inductive AddOutcome where
  | alertMsg (msg : String)
  | write (time : String) (minutes : Int)
deriving DecidableEq, Repr

/-- Whether an outcome reached the database write. -/
def AddOutcome.isWrite : AddOutcome → Bool
  | .write _ _ => true
  | .alertMsg _ => false

/-- Whether an outcome surfaced a validation message instead. -/
def AddOutcome.isAlert : AddOutcome → Bool
  | .write _ _ => false
  | .alertMsg _ => true

/-- The `addAgendamento` handler of `part_001` (lines 103-126): rejects an
empty or non-`HH:MM` time with an alert, rejects `Number(duracao) < 1` with an
alert, and otherwise reaches `addDoc` with the time and duration. -/
def addAgendamento (hora : String) (duracao : Int) : AddOutcome :=
  if hora == "" || ! matchesHHMM hora then
    .alertMsg "Informe um horário válido (HH:MM)."
  else if duracao < 1 then
    .alertMsg "A duração mínima é 1 minuto."
  else
    .write hora duracao

/-- The `handleAddSchedule` handler of `src/App.jsx` (lines 192-211): with the
database available it reaches `addDoc` whenever `newSchedule.time` is truthy,
i.e. a nonempty string; there is no format test and no duration field. -/
def handleAddScheduleReachesWrite (time : String) : Bool :=
  ! (time == "")

/-!
Database-call inventory (claims C3 and C7).

Every Firestore mutation present in the dashboard sources, one entry per
`setDoc` / `updateDoc` / `addDoc` / `deleteDoc` call site, with the collection
or document it targets.  Read-only code (`onSnapshot` listeners, the history
charts) issues no mutations and therefore contributes no entry.
-/

/-- Kind of Firestore mutation. -/
inductive DbKind where
  | setK
  | updateK
  | addK
  | deleteK
deriving DecidableEq, BEq, Repr

/-- Collections/documents targeted by the variants' mutations. -/
inductive DbTarget where
  | garden
  | schedulesSub
  | agendamentos
  | statusAspersor
  | comandosAspersor
  | configuracao
  | historico
  | leiturasUmidade
  | mediaDiaria
deriving DecidableEq, BEq, Repr

/-- One database call site: the variant and handler it lives in, the kind of
mutation, its target, and whether its payload writes any of the sensor fields
(`soilMoisture` / `temperature` / `humidity`, or `sensors` as a block). -/
structure DbCall where
  variant : String
  handler : String
  kind : DbKind
  target : DbTarget
  writesSensors : Bool
deriving DecidableEq, Repr

/-- All mutation call sites of the repository's dashboard variants. -/
def allDbCalls : List DbCall := [
  -- src/src/App.jsx
  ⟨"src/App.jsx", "ensureFirestoreData", .setK, .garden, true⟩,
  ⟨"src/App.jsx", "handleValveToggle", .updateK, .garden, false⟩,
  ⟨"src/App.jsx", "updateMockSensorData", .updateK, .garden, true⟩,
  ⟨"src/App.jsx", "handleAddSchedule", .addK, .schedulesSub, false⟩,
  ⟨"src/App.jsx", "handleDeleteSchedule", .deleteK, .schedulesSub, false⟩,
  -- src/unnamed/part_000
  ⟨"part_000", "ensureData", .setK, .garden, true⟩,
  ⟨"part_000", "toggleValve", .updateK, .garden, false⟩,
  ⟨"part_000", "updateMock", .updateK, .garden, true⟩,
  ⟨"part_000", "addSchedule", .addK, .schedulesSub, false⟩,
  ⟨"part_000", "delSchedule", .deleteK, .schedulesSub, false⟩,
  -- src/unnamed/part_001
  ⟨"part_001", "toggleAspersor", .setK, .statusAspersor, false⟩,
  ⟨"part_001", "addAgendamento", .addK, .agendamentos, false⟩,
  ⟨"part_001", "removerAgendamento", .deleteK, .agendamentos, false⟩,
  ⟨"part_001", "updateAutoModeConfig", .setK, .configuracao, false⟩,
  -- src/unnamed/part_002
  ⟨"part_002", "toggleAspersor", .setK, .comandosAspersor, false⟩,
  ⟨"part_002", "addAgendamento", .addK, .agendamentos, false⟩,
  ⟨"part_002", "removerAgendamento", .deleteK, .agendamentos, false⟩,
  -- README variant 1 (lines 44-439)
  ⟨"README v1", "toggleAspersor", .setK, .statusAspersor, false⟩,
  ⟨"README v1", "addAgendamento", .addK, .agendamentos, false⟩,
  ⟨"README v1", "removerAgendamento", .deleteK, .agendamentos, false⟩,
  ⟨"README v1", "updateAutoModeConfig", .setK, .configuracao, false⟩,
  -- README variant 2 (lines 440-1104)
  ⟨"README v2", "useAutoSettings.save", .setK, .configuracao, false⟩,
  ⟨"README v2", "useSchedule.save", .setK, .agendamentos, false⟩,
  ⟨"README v2", "triggerActuator", .setK, .statusAspersor, false⟩,
  ⟨"README v2", "excluir", .deleteK, .agendamentos, false⟩]

/-- Whether a target is a schedule collection (the `schedules` sub-collection
of the garden document, or the top-level `agendamentos` collection). -/
def isScheduleTarget (t : DbTarget) : Bool :=
  t == .schedulesSub || t == .agendamentos

/-- Handlers whose payload writes sensor fields: the two mock-data buttons and
the two first-run initializers of the garden document. -/
def sensorWritingHandlers : List String :=
  ["updateMockSensorData", "updateMock", "ensureFirestoreData", "ensureData"]

/-!
Error handling of database calls (claim C4).

One entry per handler that awaits Firestore calls, transcribing what its
`catch` block (if any) does with a failure: whether the failure is caught at
all, whether it raises a `window.alert`, whether it sets a React error state
rendered as an inline banner, and whether it logs to the console.
-/

/-- Error-path behaviour of one database-calling handler. -/
structure ErrBehavior where
  variant : String
  handler : String
  caught : Bool
  alerts : Bool
  setsErrorState : Bool
  logsConsole : Bool
deriving DecidableEq, Repr

/-- A failure is surfaced to the user when it is caught and produces an alert
or an inline error banner. -/
def surfaced (b : ErrBehavior) : Bool :=
  b.caught && (b.alerts || b.setsErrorState)

/-- Error behaviour of `handleValveToggle` (`src/App.jsx` lines 159-172): the
`catch` block only calls `console.error`. -/
def handleValveToggleErr : ErrBehavior :=
  ⟨"src/App.jsx", "handleValveToggle", true, false, false, true⟩

/-- Error behaviour of every handler that awaits Firestore mutations or the
initial `getDoc`, across all variants. -/
def allErrBehaviors : List ErrBehavior := [
  -- src/src/App.jsx
  ⟨"src/App.jsx", "ensureFirestoreData", true, false, true, true⟩,
  handleValveToggleErr,
  ⟨"src/App.jsx", "updateMockSensorData", true, false, false, true⟩,
  ⟨"src/App.jsx", "handleAddSchedule", true, false, true, true⟩,
  ⟨"src/App.jsx", "handleDeleteSchedule", true, false, false, true⟩,
  -- src/unnamed/part_000 (init failure is caught by the effect wrapper)
  ⟨"part_000", "init ensureData", true, false, true, true⟩,
  ⟨"part_000", "toggleValve", true, false, true, true⟩,
  ⟨"part_000", "updateMock", true, false, true, true⟩,
  ⟨"part_000", "addSchedule", true, false, true, true⟩,
  ⟨"part_000", "delSchedule", true, false, true, true⟩,
  -- src/unnamed/part_001
  ⟨"part_001", "toggleAspersor", true, true, false, true⟩,
  ⟨"part_001", "addAgendamento", true, true, false, true⟩,
  ⟨"part_001", "removerAgendamento", true, true, false, true⟩,
  ⟨"part_001", "updateAutoModeConfig", true, true, false, true⟩,
  -- src/unnamed/part_002 (no try/catch at all: rejections escape)
  ⟨"part_002", "toggleAspersor", false, false, false, false⟩,
  ⟨"part_002", "addAgendamento", false, false, false, false⟩,
  ⟨"part_002", "removerAgendamento", false, false, false, false⟩,
  -- README variant 1
  ⟨"README v1", "toggleAspersor", true, true, false, true⟩,
  ⟨"README v1", "addAgendamento", true, true, false, true⟩,
  ⟨"README v1", "removerAgendamento", true, true, false, true⟩,
  ⟨"README v1", "updateAutoModeConfig", true, true, false, true⟩,
  -- README variant 2 (triggerActuator catches but only logs and returns ok:false)
  ⟨"README v2", "useAutoSettings.save", false, false, false, false⟩,
  ⟨"README v2", "useSchedule.save", false, false, false, false⟩,
  ⟨"README v2", "triggerActuator", true, false, false, true⟩,
  ⟨"README v2", "excluir", false, false, false, false⟩]

/-!
Schedule creation (claim C6).
-/

/-- Payload of a schedule entry as written by the `addDoc`-based creators
(`part_000 addSchedule`, `part_001`/`part_002`/README-v1 `addAgendamento`). -/
structure Agendamento where
  time : String
  minutes : Int
  target : String
deriving DecidableEq, Repr

/-- A schedule collection: `addDoc` assigns each new document a fresh id,
modelled by a counter that only grows. -/
structure SchedCol where
  nextId : Nat
  docs : List (Nat × Agendamento)
deriving DecidableEq, Repr

/-- The `addDoc` call of the schedule creators: append the entry under a fresh
document id.  No field of the existing collection is consulted — in
particular no uniqueness or overlap test against existing entries. -/
def addDocSchedule (e : Agendamento) (c : SchedCol) : SchedCol :=
  { nextId := c.nextId + 1, docs := c.docs ++ [(c.nextId, e)] }

/-- Creating a batch of entries one after the other. -/
def addManySchedules (es : List Agendamento) (c : SchedCol) : SchedCol :=
  es.foldl (fun acc e => addDocSchedule e acc) c

/-- All document ids of the collection are below the fresh-id counter. -/
def idsFresh (c : SchedCol) : Prop := ∀ p ∈ c.docs, p.1 < c.nextId

instance : DecidablePred idsFresh := fun c =>
  inferInstanceAs (Decidable (∀ p ∈ c.docs, p.1 < c.nextId))

/-- Valid new entry in the sense of the claim: `HH:MM` time and duration at
least one minute. -/
def validAgendamento (e : Agendamento) : Bool :=
  matchesHHMM e.time && decide (1 ≤ e.minutes)

/-- A schedule document of the README-v2 `useSchedule` hook (the variant that
stores the whole schedule in the single document `agendamentos/aspersor1`). -/
structure FixedSched where
  time : String
  minutes : Int
  days : List String
deriving DecidableEq, Repr

/-- The `useSchedule.save` operation (README lines 632-647): with no day
selected it alerts and writes nothing; otherwise it issues `setDoc` on the
fixed document id `"aspersor1"`, creating it if absent and overwriting it
otherwise. -/
def saveScheduleFixed (s : FixedSched) (col : List (String × FixedSched)) :
    List (String × FixedSched) :=
  if s.days.isEmpty then col
  else if col.any (fun p => p.1 == "aspersor1") then
    col.map (fun p => if p.1 == "aspersor1" then ("aspersor1", s) else p)
  else
    col ++ [("aspersor1", s)]

/-!
Schedule list ordering (claim C9).
-/

/-- A schedule document as it lands in UI state: its document id, its time
string, and its creation timestamp (epoch value of `createdAt`). -/
structure SchedDoc where
  id : String
  time : String
  createdAt : Nat
deriving DecidableEq, Repr

/-- Comparator of the in-code sort of `src/App.jsx` (line 147):
`a.time.localeCompare(b.time)`, i.e. order by the time string. -/
def timeLe (a b : SchedDoc) : Prop := a.time ≤ b.time

instance : DecidableRel timeLe := fun a b =>
  inferInstanceAs (Decidable (a.time ≤ b.time))

instance : IsTotal SchedDoc timeLe := ⟨fun a b => le_total a.time b.time⟩

instance : IsTrans SchedDoc timeLe := ⟨fun _ _ _ hab hbc => le_trans hab hbc⟩

/-- Ordering key of the two-field queries
`orderBy("time", "asc"), orderBy("createdAt", "asc")`
(`part_001` / `part_002` / README-v1): time first, creation timestamp second. -/
def timeCreatedLe (a b : SchedDoc) : Prop :=
  a.time < b.time ∨ (a.time = b.time ∧ a.createdAt ≤ b.createdAt)

instance : DecidableRel timeCreatedLe := fun a b =>
  inferInstanceAs (Decidable (a.time < b.time ∨ (a.time = b.time ∧ a.createdAt ≤ b.createdAt)))

instance : IsTotal SchedDoc timeCreatedLe := ⟨fun a b => by
  unfold timeCreatedLe
  rcases lt_trichotomy a.time b.time with h | h | h
  · exact Or.inl (Or.inl h)
  · rcases le_total a.createdAt b.createdAt with hc | hc
    · exact Or.inl (Or.inr ⟨h, hc⟩)
    · exact Or.inr (Or.inr ⟨h.symm, hc⟩)
  · exact Or.inr (Or.inl h)⟩

instance : IsTrans SchedDoc timeCreatedLe := ⟨fun a b c hab hbc => by
  unfold timeCreatedLe at *
  rcases hab with h1 | ⟨h1, h2⟩ <;> rcases hbc with h3 | ⟨h3, h4⟩
  · exact Or.inl (lt_trans h1 h3)
  · exact Or.inl (lt_of_lt_of_le h1 (le_of_eq h3))
  · exact Or.inl (lt_of_le_of_lt (le_of_eq h1) h3)
  · exact Or.inr ⟨h1.trans h3, le_trans h2 h4⟩⟩

/-- Snapshot handler of `src/App.jsx` (lines 142-148): collect the delivered
documents and sort them in place with the `localeCompare` comparator on the
time string (JavaScript `Array.prototype.sort` is a stable comparison sort,
embedded as insertion sort). -/
def appJsxSnapshot (docs : List SchedDoc) : List SchedDoc :=
  List.insertionSort timeLe docs

/-- Ordering contract of the external database for the single-field query
`query(schedulesRef, orderBy("time"))` of `part_000`: snapshots arrive sorted
by the time field (the database itself is an excluded external collaborator;
only its documented ordering is modelled). -/
def firestoreOrderByTime (docs : List SchedDoc) : List SchedDoc :=
  List.insertionSort timeLe docs

/-- Ordering contract of the external database for the two-field queries of
`part_001` / `part_002` / README-v1: snapshots arrive sorted by time, ties by
creation timestamp. -/
def firestoreOrderByTimeCreated (docs : List SchedDoc) : List SchedDoc :=
  List.insertionSort timeCreatedLe docs

/-- Snapshot handler of the `orderBy("time"), orderBy("createdAt")` variants:
`snap.docs.map(...)` keeps the delivered order, so UI state is exactly the
query-ordered list. -/
def agendaState (delivered : List SchedDoc) : List SchedDoc :=
  firestoreOrderByTimeCreated delivered

/-!
Weekday encoding (claim C10).
-/

/-- Weekday labels in the order used by the README-v2 `useSchedule` hook. -/
def weekLabels : List String := ["Dom", "Seg", "Ter", "Qua", "Qui", "Sex", "Sáb"]

/-- Saving direction (`useSchedule.save`, README lines 632-647):
`labels.filter((_, i) => days[i])` — the labels whose position holds `true`. -/
def saveDays (days : List Bool) : List String :=
  ((weekLabels.zip days).filter fun p => p.2).map fun p => p.1

/-- Loading direction (`useSchedule` snapshot, README lines 609-630):
`labels.map(d => data.days?.includes(d))` — membership of each label. -/
def loadDays (stored : List String) : List Bool :=
  weekLabels.map fun l => stored.contains l

/-!
Theorems.  Helper lemmas come first, then one theorem per claim (with its
counterexample and witness where needed).
-/

theorem stepClamped_inv {s : HumState} {e : SliderEvent}
    (hs : HumInv s) (he : eventInRange e) : HumInv (stepClamped s e) := by
  obtain ⟨h0, hlt, h100⟩ := hs
  cases e with
  | setMin v =>
      simp only [stepClamped, HumInv, eventInRange, SliderEvent.val] at *
      split <;> omega
  | setMax v =>
      simp only [stepClamped, HumInv, eventInRange, SliderEvent.val] at *
      split <;> omega

theorem foldl_stepClamped_inv :
    ∀ (evs : List SliderEvent) (s : HumState), HumInv s →
      (∀ e ∈ evs, eventInRange e) → HumInv (evs.foldl stepClamped s) := by
  intro evs
  induction evs with
  | nil => intro s hs _; simpa using hs
  | cons e evs ih =>
      intro s hs hall
      simp only [List.foldl_cons]
      exact ih _ (stepClamped_inv hs (hall e (List.mem_cons_self e evs)))
        (fun x hx => hall x (List.mem_cons_of_mem e hx))

/-- C1 counterexample: in the `AutoIrrigationCard` variant (which has both
sliders), moving the min slider to 90 from the subscribed default state
`(50, 80)` does not clamp the input to `max(0, maxHumidity - 1) = 79`; it
yields the pair `(90, 90)`, so `minHumidity < maxHumidity` fails. -/
theorem C1_counterexample :
    (stepDragged { minH := 50, maxH := 80 } (SliderEvent.setMin 90)).minH = 90
    ∧ ¬ (stepDragged { minH := 50, maxH := 80 } (SliderEvent.setMin 90)).minH
        < (stepDragged { minH := 50, maxH := 80 } (SliderEvent.setMin 90)).maxH := by
  constructor <;> decide

/-- C1 (amended): in the README variant with `handleMinHumidityChange` /
`handleMaxHumidityChange`, every sequence of slider inputs in the DOM range
0-100 keeps `0 ≤ minHumidity < maxHumidity ≤ 100` from the initial `(35, 60)`;
the `AutoIrrigationCard` variant drags the other bound along instead and
guarantees only `minHumidity ≤ maxHumidity`, with equality reachable. -/
theorem C1_amended :
    (∀ evs : List SliderEvent, (∀ e ∈ evs, eventInRange e) →
        HumInv (runClamped evs))
    ∧ (∀ (s : HumState) (e : SliderEvent), s.minH ≤ s.maxH →
        (stepDragged s e).minH ≤ (stepDragged s e).maxH) := by
  constructor
  · intro evs hall
    exact foldl_stepClamped_inv evs initHumState (by decide) hall
  · intro s e hle
    cases e with
    | setMin v => simp only [stepDragged]; split <;> omega
    | setMax v => simp only [stepDragged]; split <;> omega

/-- C1 witness: the amended theorem applied to the concrete event sequence
`[setMin 80, setMax 20]` and to the concrete dragged-variant step from
`(50, 80)`. -/
theorem C1_amended_witness :
    HumInv (runClamped [SliderEvent.setMin 80, SliderEvent.setMax 20])
    ∧ (stepDragged { minH := 50, maxH := 80 } (SliderEvent.setMin 90)).minH
        ≤ (stepDragged { minH := 50, maxH := 80 } (SliderEvent.setMin 90)).maxH :=
  ⟨C1_amended.1 [SliderEvent.setMin 80, SliderEvent.setMax 20] (by decide),
   C1_amended.2 { minH := 50, maxH := 80 } (SliderEvent.setMin 90) (by decide)⟩

/-- C2 counterexample: in the `src/App.jsx` variant the add-schedule handler
reaches the database write for the time string `"9:30"`, which does not match
`^\d{2}:\d{2}$` — so the claimed if-and-only-if validation does not hold in
every variant. -/
theorem C2_counterexample :
    handleAddScheduleReachesWrite "9:30" = true ∧ matchesHHMM "9:30" = false := by
  constructor <;> decide

/-- C2 (amended): in the `part_001` variant, `addAgendamento` reaches `addDoc`
exactly when the time matches the `HH:MM` regular expression and the duration
is at least 1, and every rejected call surfaces an alert message instead; the
`src/App.jsx` variant reaches `addDoc` exactly when the time string is
nonempty, with no format or duration validation. -/
theorem C2_amended :
    (∀ (hora : String) (duracao : Int),
        (addAgendamento hora duracao).isWrite = true
          ↔ matchesHHMM hora = true ∧ 1 ≤ duracao)
    ∧ (∀ (hora : String) (duracao : Int),
        (addAgendamento hora duracao).isAlert = ! (addAgendamento hora duracao).isWrite)
    ∧ (∀ time : String,
        handleAddScheduleReachesWrite time = true ↔ time ≠ "") := by
  refine ⟨fun hora duracao => ?_, fun hora duracao => ?_, fun time => ?_⟩
  · unfold addAgendamento
    constructor
    · intro h
      by_cases he : hora = ""
      · simp [he, AddOutcome.isWrite] at h
      · by_cases hre : matchesHHMM hora
        · by_cases hd : duracao < 1
          · simp [he, hre, hd, AddOutcome.isWrite] at h
          · exact ⟨hre, by omega⟩
        · simp [he, hre, AddOutcome.isWrite] at h
    · rintro ⟨hre, hd⟩
      have hne : ¬ hora = "" := by
        intro he
        subst he
        simp [matchesHHMM] at hre
      simp [hne, hre, AddOutcome.isWrite, show ¬ duracao < 1 by omega]
  · unfold addAgendamento
    split
    · rfl
    · split <;> rfl
  · unfold handleAddScheduleReachesWrite
    constructor
    · intro h he
      subst he
      simp at h
    · intro h
      simpa using h

/-- C3 counterexample: `updateMockSensorData` (a button handler on the
`src/App.jsx` dashboard) writes the sensor fields — applying its update with
the mock reading `(10, 20, 45)` changes the `sensors` block of the garden
document, so the sensor fields are not read-only to the UI. -/
theorem C3_counterexample :
    (applyUpdateMock ⟨10, 20, 45⟩ "t1" (initialGardenDoc "t0")).sensors
      ≠ (initialGardenDoc "t0").sensors
    ∧ (allDbCalls.any fun c => c.handler == "updateMockSensorData"
        && c.writesSensors) = true := by
  constructor <;> decide

/-- C3 (amended): sensor readings are produced externally in normal operation
and the ordinary controls leave them alone — valve toggling never changes the
`sensors` block — but the dashboards of `src/App.jsx` and `part_000` expose a
mock-data button whose handler overwrites `soilMoisture`, `temperature` and
`humidity` with random values, and the first-run initializers seed default
sensor values; no other call site writes sensor fields. -/
theorem C3_amended :
    (∀ (disp : ValveStates) (vid : ValveId) (now : String) (d : GardenDoc),
        (applyValveToggle disp vid now d).sensors = d.sensors)
    ∧ (∀ (next : SensorData) (now : String) (d : GardenDoc),
        (applyUpdateMock next now d).sensors = next)
    ∧ (allDbCalls.all fun c =>
        ! c.writesSensors || sensorWritingHandlers.contains c.handler) = true := by
  refine ⟨fun disp vid now d => rfl, fun next now d => rfl, by decide⟩

/-- C4 counterexample: `handleValveToggle` in `src/App.jsx` catches a database
failure but reports it only to the console — no alert and no error banner —
and `part_002`'s `toggleAspersor` does not catch at all, so not every database
failure is surfaced to the user. -/
theorem C4_counterexample :
    handleValveToggleErr ∈ allErrBehaviors
    ∧ handleValveToggleErr.caught = true
    ∧ handleValveToggleErr.logsConsole = true
    ∧ surfaced handleValveToggleErr = false
    ∧ (ErrBehavior.caught ⟨"part_002", "toggleAspersor", false, false, false, false⟩) = false
    ∧ (allErrBehaviors.all surfaced) = false := by
  refine ⟨by decide, rfl, rfl, rfl, rfl, by decide⟩

/-- C4 (amended): database-call failures in the `part_001` and first README
variants are all caught and surfaced via `alert`; `src/App.jsx` catches every
failure and surfaces the initialization and add-schedule ones in its inline
error banner, but its valve-toggle, mock-update and schedule-delete handlers
log failures only to the console; `part_002` and the hook-based second README
variant mostly do not catch database failures at all. -/
theorem C4_amended :
    ((allErrBehaviors.filter fun b =>
        b.variant == "part_001" || b.variant == "README v1").all surfaced) = true
    ∧ ((allErrBehaviors.filter fun b => b.variant == "src/App.jsx").all
        ErrBehavior.caught) = true
    ∧ ((allErrBehaviors.filter fun b =>
        b.variant == "src/App.jsx"
          && (b.handler == "ensureFirestoreData"
            || b.handler == "handleAddSchedule")).all surfaced) = true
    ∧ ((allErrBehaviors.filter fun b => b.variant == "part_000").all surfaced) = true := by
  refine ⟨by decide, by decide, by decide, by decide⟩

/-- C5: toggling a valve writes exactly the negation of that valve's displayed
state to `valves.<valveId>` together with the fresh `lastUpdated` timestamp,
and leaves the sensor block and the other valve's state unchanged. -/
theorem C5_valve_toggle (disp : ValveStates) (vid : ValveId) (now : String)
    (d : GardenDoc) :
    getValve (applyValveToggle disp vid now d).valves vid = ! getValve disp vid
    ∧ (applyValveToggle disp vid now d).sensors = d.sensors
    ∧ getValve (applyValveToggle disp vid now d).valves (otherValve vid)
        = getValve d.valves (otherValve vid)
    ∧ (applyValveToggle disp vid now d).lastUpdated = now := by
  cases vid <;>
    simp [applyValveToggle, getValve, setValve, otherValve]

/-- C8: whenever automatic mode is enabled the manual sprinkler toggle is
inert — `toggleAspersor` performs no write at all — and with automatic mode
off it writes the negation of the displayed state. -/
theorem C8_auto_mode_inert (lig : Bool) :
    toggleAspersor true lig = none ∧ toggleAspersor false lig = some (! lig) := by
  constructor <;> rfl

theorem addManySchedules_length (es : List Agendamento) :
    ∀ c : SchedCol, (addManySchedules es c).docs.length = c.docs.length + es.length := by
  induction es with
  | nil => intro c; simp [addManySchedules]
  | cons e es ih =>
      intro c
      have : addManySchedules (e :: es) c = addManySchedules es (addDocSchedule e c) := rfl
      rw [this, ih]
      simp [addDocSchedule]
      omega

/-- C6 counterexample: in the README `useSchedule` variant, creating two valid
entries (both with an `HH:MM` time, duration ≥ 1 and a weekday selected)
starting from an empty collection leaves a collection of size 1, not 2 — the
second save overwrites the fixed document instead of appending. -/
theorem C6_counterexample :
    (saveScheduleFixed ⟨"07:30", 10, ["Ter"]⟩
        (saveScheduleFixed ⟨"06:00", 15, ["Seg"]⟩ [])).length = 1
    ∧ ¬ (saveScheduleFixed ⟨"07:30", 10, ["Ter"]⟩
        (saveScheduleFixed ⟨"06:00", 15, ["Seg"]⟩ [])).length = 2
    ∧ matchesHHMM "06:00" = true ∧ matchesHHMM "07:30" = true := by
  refine ⟨by decide, by decide, by decide, by decide⟩

/-- C6 (amended): in the `addDoc`-based variants every create — even one whose
time and target duplicate an existing entry's — appends a single new document
under a fresh id and leaves all existing documents unchanged, so creating `n`
valid entries grows the collection by `n`; the README `useSchedule` variant
instead saves the whole schedule into the single fixed document
`agendamentos/aspersor1`, overwriting the previous save. -/
theorem C6_amended :
    (∀ (e : Agendamento) (c : SchedCol),
        (addDocSchedule e c).docs = c.docs ++ [(c.nextId, e)]
        ∧ (idsFresh c →
            c.nextId ∉ c.docs.map Prod.fst ∧ idsFresh (addDocSchedule e c)))
    ∧ (∀ (es : List Agendamento) (c : SchedCol),
        (addManySchedules es c).docs.length = c.docs.length + es.length) := by
  constructor
  · intro e c
    refine ⟨rfl, fun hf => ⟨?_, ?_⟩⟩
    · intro hmem
      obtain ⟨p, hp, hfst⟩ := List.mem_map.mp hmem
      exact absurd (hfst ▸ hf p hp) (lt_irrefl c.nextId)
    · intro p hp
      simp only [addDocSchedule, List.mem_append, List.mem_singleton] at hp
      rcases hp with hp | hp
      · exact Nat.lt_succ_of_lt (hf p hp)
      · subst hp; exact Nat.lt_succ_self c.nextId
  · intro es c
    exact addManySchedules_length es c

/-- C6 witness: the amended theorem applied to a concrete collection that
already holds the very same entry twice — the duplicate is still appended as a
distinct third document, and three successive creates grow an empty collection
by three. -/
theorem C6_amended_witness :
    ((addDocSchedule ⟨"06:00", 15, "aspersor1"⟩
        ⟨2, [(0, ⟨"06:00", 15, "aspersor1"⟩), (1, ⟨"06:00", 15, "aspersor1"⟩)]⟩).docs
      = [(0, ⟨"06:00", 15, "aspersor1"⟩), (1, ⟨"06:00", 15, "aspersor1"⟩),
          (2, ⟨"06:00", 15, "aspersor1"⟩)]
      ∧ (2 ∉ ([(0, (⟨"06:00", 15, "aspersor1"⟩ : Agendamento)),
          (1, ⟨"06:00", 15, "aspersor1"⟩)].map Prod.fst)))
    ∧ (addManySchedules
        [⟨"06:00", 15, "aspersor1"⟩, ⟨"06:00", 15, "aspersor1"⟩,
          ⟨"08:00", 5, "aspersor1"⟩] ⟨0, []⟩).docs.length = 0 + 3 := by
  have h := C6_amended.1 ⟨"06:00", 15, "aspersor1"⟩
    ⟨2, [(0, ⟨"06:00", 15, "aspersor1"⟩), (1, ⟨"06:00", 15, "aspersor1"⟩)]⟩
  exact ⟨⟨h.1, (h.2 (by decide)).1⟩,
    C6_amended.2 [⟨"06:00", 15, "aspersor1"⟩, ⟨"06:00", 15, "aspersor1"⟩,
      ⟨"08:00", 5, "aspersor1"⟩] ⟨0, []⟩⟩

/-- C7: the only deletion operations exposed by any variant remove a single
schedule document (from the `schedules` sub-collection or the `agendamentos`
collection); no call site deletes the garden document, the actuator-status
document, the command document, the configuration document, or any history
document. -/
theorem C7_deletes_only_schedules :
    (allDbCalls.all fun c =>
        ! (c.kind == DbKind.deleteK) || isScheduleTarget c.target) = true
    ∧ (allDbCalls.any fun c => c.kind == DbKind.deleteK) = true
    ∧ (allDbCalls.all fun c =>
        ! (c.kind == DbKind.deleteK
          && (c.target == DbTarget.garden || c.target == DbTarget.statusAspersor
            || c.target == DbTarget.comandosAspersor
            || c.target == DbTarget.configuracao || c.target == DbTarget.historico
            || c.target == DbTarget.leiturasUmidade
            || c.target == DbTarget.mediaDiaria))) = true := by
  refine ⟨by decide, by decide, by decide⟩

/-- Pointwise weakening: the two-field order implies time order. -/
theorem timeCreatedLe_imp_timeLe {a b : SchedDoc} (h : timeCreatedLe a b) :
    timeLe a b := by
  rcases h with h | ⟨h, _⟩
  · exact le_of_lt h
  · exact le_of_eq h

/-- C9: after every snapshot update the schedule list held in UI state is
sorted in non-decreasing order of the time string — by the in-code sort in
`src/App.jsx`, by the single-field query order in `part_000`, and by the
two-field query order (ties broken by `createdAt`) in the other variants —
so the rendered list always appears in time order. -/
theorem C9_schedule_list_sorted :
    (∀ docs : List SchedDoc, List.Sorted timeLe (appJsxSnapshot docs))
    ∧ (∀ docs : List SchedDoc, List.Sorted timeLe (firestoreOrderByTime docs))
    ∧ (∀ docs : List SchedDoc, List.Sorted timeCreatedLe (agendaState docs))
    ∧ (∀ docs : List SchedDoc, List.Sorted timeLe (agendaState docs)) := by
  refine ⟨fun docs => List.sorted_insertionSort timeLe docs,
    fun docs => List.sorted_insertionSort timeLe docs,
    fun docs => List.sorted_insertionSort timeCreatedLe docs,
    fun docs => ?_⟩
  exact (List.sorted_insertionSort timeCreatedLe docs).imp
    (fun h => timeCreatedLe_imp_timeLe h)

theorem loadDays_saveDays_seven :
    ∀ a b c d e f g : Bool,
      ([a, b, c, d, e, f, g].any id) = true →
        loadDays (saveDays [a, b, c, d, e, f, g]) = [a, b, c, d, e, f, g] := by
  decide

/-- C10: the weekday encoding round-trips — for every seven-element boolean
day array with at least one selected day, converting to the list of selected
labels from `[Dom, Seg, Ter, Qua, Qui, Sex, Sáb]` and back by membership
reproduces exactly the original array. -/
theorem C10_weekday_roundtrip (days : List Bool) (h7 : days.length = 7)
    (hone : days.any id = true) :
    loadDays (saveDays days) = days := by
  rcases days with _ | ⟨a, _ | ⟨b, _ | ⟨c, _ | ⟨d, _ | ⟨e, _ | ⟨f, _ | ⟨g, rest⟩⟩⟩⟩⟩⟩⟩ <;>
    simp only [List.length] at h7 <;> try omega
  have hrest : rest = [] := by
    cases rest with
    | nil => rfl
    | cons x xs => simp only [List.length] at h7; omega
  subst hrest
  exact loadDays_saveDays_seven a b c d e f g hone

/-- C10 witness: the round-trip theorem applied to the concrete day array
`(Seg, Qua, Sex)`. -/
theorem C10_weekday_roundtrip_witness :
    loadDays (saveDays [false, true, false, true, false, true, false])
      = [false, true, false, true, false, true, false] :=
  C10_weekday_roundtrip [false, true, false, true, false, true, false]
    (by decide) (by decide)

end Horta
